import Mathlib

/-!
Shallow embedding of the persistence lifecycle manager
(src/src/magentic_ui/backend/database/db_manager.py) and proofs about it.

External effects (driver exceptions, migration-collaborator outcomes,
configuration loading) are passed in as explicit outcome parameters, so
every operation is a pure, executable function of its inputs.  Machine
state touched by an operation (the init lock, the list of persisted rows)
is threaded explicitly.
-/

namespace MagenticDB

/-- The uniform result record returned by facade and coordinator
operations (`Response` in the source: message, status, data). -/
structure Response (α : Type) where
  message : String
  status : Bool
  data : Option α
deriving Repr, DecidableEq

/-- The process-wide init lock (`DatabaseManager._init_lock`), modelled
with an owner so that ownership questions are expressible: `none` means
free, `some o` means held by caller `o`. -/
abbrev Gate : Type := Option Nat

/-- Whether the lock is held by anyone (`threading.Lock.locked()`). -/
def Gate.lockedAny (g : Gate) : Bool := g.isSome

/-- Outcomes of the collaborators consulted by `initialize_database`:
whether the body raises, whether any tables exist, what
`check_schema_status`, `initialize_migrations` and
`ensure_schema_up_to_date` report. -/
structure InitEnv where
  bodyError : Option String
  tablesExist : Bool
  shouldAutoUpgrade : Bool
  initMigrationsOk : Bool
  ensureUpToDateOk : Bool
deriving Repr, DecidableEq

/-- The body of `initialize_database` after the lock has been acquired
(the code inside the try block, lines 120-147 of db_manager.py).  An
exception anywhere in the body is reported as a failed `Response`. -/
def initBody (autoUpgrade : Bool) (env : InitEnv) : Response Unit :=
  match env.bodyError with
  | some e =>
      { message := "Database initialization failed: " ++ e, status := false, data := none }
  | none =>
      if !env.tablesExist then
        if env.initMigrationsOk then
          { message := "Database initialized successfully", status := true, data := none }
        else
          { message := "Failed to initialize migrations", status := false, data := none }
      else if autoUpgrade || env.shouldAutoUpgrade then
        if env.ensureUpToDateOk then
          { message := "Database schema is up to date", status := true, data := none }
        else
          { message := "Database upgrade failed", status := false, data := none }
      else
        { message := "Database is ready", status := true, data := none }

/-- `initialize_database`: try-acquire of the init lock; on contention an
immediate failure response with the lock untouched; otherwise the body
runs with the lock held and the finally clause releases it on every exit
path, so the returned lock state is `none`. -/
def init_database (gate : Gate) (autoUpgrade : Bool) (env : InitEnv) :
    Response Unit × Gate :=
  if gate.lockedAny then
    ({ message := "Database initialization already in progress", status := false, data := none },
      gate)
  else
    (initBody autoUpgrade env, none)

/-- Claim C1: a call that finds the gate held fails immediately with the
contention message and does not touch the gate; a call that acquired the
gate leaves it released on every exit path (every body outcome, including
an exception). -/
theorem init_database_gate_protocol (gate : Gate) (autoUpgrade : Bool) (env : InitEnv) :
    (gate.lockedAny = true →
      init_database gate autoUpgrade env =
        ({ message := "Database initialization already in progress",
           status := false, data := none }, gate)) ∧
    (gate.lockedAny = false → (init_database gate autoUpgrade env).2 = none) := by
  constructor <;> intro h <;> simp [init_database, h]

/-- Claim C1 witness: at a concrete held gate the contention response is
returned with the gate untouched, and at a concrete free gate with a
body that raises, the gate ends released. -/
theorem init_database_gate_protocol_witness :
    init_database (some 3) false ⟨some "boom", true, false, true, true⟩ =
      ({ message := "Database initialization already in progress",
         status := false, data := none }, some 3) ∧
    (init_database none false ⟨some "boom", true, false, true, true⟩).2 = none :=
  ⟨(init_database_gate_protocol (some 3) false ⟨some "boom", true, false, true, true⟩).1 rfl,
   (init_database_gate_protocol none false ⟨some "boom", true, false, true, true⟩).2 rfl⟩

/-- The finally clause of `reset_db` (lines 206-209 of db_manager.py):
release the init lock when `locked()` reports it held.  The caller
identity is a parameter to make the ownership question expressible; the
code itself never consults it, only `locked()`.  Returns the resulting
gate and whether a release was performed. -/
def resetCleanup (callOwner : Nat) (gate : Gate) : Gate × Bool :=
  let _ := callOwner
  if gate.lockedAny then (none, true) else (gate, false)

/-- Driver outcomes consulted by `reset_db`: whether `engine.dispose`
raises before the session block, and whether the drop inside the session
raises. -/
structure ResetEnv where
  disposeError : Option String
  dropError : Option String
deriving Repr, DecidableEq

/-- `reset_db` under sequential execution, with the caller holding
identity `owner`.  Try-acquire of the init lock; on contention an
immediate failure.  A dispose failure skips the session block, so the
outer finally still finds the lock held and releases it.  A drop failure
is rolled back and re-raised; the inner finally has already released the
lock, so the outer finally finds it free.  On success the inner finally
releases the lock, then (when `recreateTables`) the nested
`initialize_database` call runs and its result is discarded. -/
def reset_db (gate : Gate) (owner : Nat) (recreateTables : Bool)
    (env : ResetEnv) (initEnv : InitEnv) : Response Unit × Gate :=
  if gate.lockedAny then
    ({ message := "Database reset already in progress", status := false, data := none }, gate)
  else
    match env.disposeError with
    | some e =>
        let cleaned := resetCleanup owner (some owner)
        ({ message := "Error while resetting database: " ++ e, status := false, data := none },
          cleaned.1)
    | none =>
        match env.dropError with
        | some e =>
            let cleaned := resetCleanup owner none
            ({ message := "Error while resetting database: " ++ e, status := false, data := none },
              cleaned.1)
        | none =>
            let afterInner : Gate := none
            let nested :=
              if recreateTables then some (init_database afterInner false initEnv) else none
            let finalGate := (resetCleanup owner (match nested with
              | some r => r.2
              | none => afterInner)).1
            ({ message :=
                 if recreateTables then "Database reset successfully"
                 else "Database tables dropped successfully",
               status := true, data := none }, finalGate)

/-- Claim C4 counterexample: the cleanup path releases a gate held by
owner 7 even when the cleanup runs on behalf of caller 0, so it does not
release only when the gate is held by the reset call itself. -/
theorem resetCleanup_releases_foreign_gate :
    (resetCleanup 0 (some 7)).2 = true ∧
    (resetCleanup 0 (some 7)).1 = none ∧ (0 : Nat) ≠ 7 := by
  decide

/-- Claim C4 amended: the cleanup path releases the gate exactly when it
is locked by anyone, regardless of which call holds it; in particular it
never releases an already-free gate (no double release of a free lock),
and it always leaves the gate free. -/
theorem resetCleanup_releases_iff_locked (callOwner : Nat) (gate : Gate) :
    (resetCleanup callOwner gate).2 = gate.lockedAny ∧
    (resetCleanup callOwner gate).1 = none := by
  constructor
  · cases gate <;> rfl
  · cases gate <;> rfl

/-- Claim C10: when the drop succeeds, `reset_db` with
`recreate_tables=true` reports success with the fixed message for every
outcome of the nested initialize call, whose result is discarded. -/
theorem reset_db_discards_nested_init (owner : Nat) (initEnv : InitEnv) :
    (reset_db none owner true ⟨none, none⟩ initEnv).1 =
      { message := "Database reset successfully", status := true, data := none } := by
  rfl

/-- Claim C10 witness: with a nested initialize environment in which the
migration bookkeeping step fails (its own response would be a failure),
the reset call still reports success. -/
theorem reset_db_discards_nested_init_witness :
    (initBody false ⟨none, false, false, false, true⟩).status = false ∧
    (reset_db none 0 true ⟨none, none⟩ ⟨none, false, false, false, true⟩).1 =
      { message := "Database reset successfully", status := true, data := none } :=
  ⟨rfl, reset_db_discards_nested_init 0 ⟨none, false, false, false, true⟩⟩

/-- A persisted entity (`DatabaseModel` row): identifier, creation and
update timestamps, and the remaining columns as a field map.  The record
itself plays the role of `model_dump()`: the dump of an entity is the
entity. -/
structure Entity where
  id : Nat
  createdAt : Nat
  updatedAt : Nat
  fields : List (String × Nat)
deriving Repr, DecidableEq

/-- `upsert` (lines 211-261 of db_manager.py).  The lookup finds an
existing row by identifier.  If found, the incoming model gets a fresh
update stamp and every dumped field is copied onto the existing row in
place.  If not found, the incoming model is inserted.  `txFails` models
the transactional step (commit) raising: the session is rolled back and
the database is unchanged, `status` becomes false, but the response is
still built from the branch already taken: the Created/Updated message
and `data := model dump`. -/
def upsert (db : List Entity) (model : Entity) (now : Nat) (txFails : Bool) :
    Response Entity × List Entity :=
  let existing := db.find? (fun e => e.id == model.id)
  let model2 :=
    match existing with
    | some _ => { model with updatedAt := now }
    | none => model
  let db2 :=
    if txFails then db
    else
      match existing with
      | some _ => db.map (fun e => if e.id == model.id then model2 else e)
      | none => db ++ [model2]
  ({ message :=
       if existing.isSome then "Entity Updated Successfully"
       else "Entity Created Successfully",
     status := !txFails,
     data := some model2 }, db2)

/-- Claim C2 counterexample: a failing transactional step rolls back, but
the response message still reads Created Successfully and the payload is
present, contradicting the claimed error message and absent payload. -/
theorem upsert_failure_keeps_success_message_and_payload :
    (upsert [] ⟨1, 5, 0, [("name", 7)]⟩ 9 true).1.status = false ∧
    (upsert [] ⟨1, 5, 0, [("name", 7)]⟩ 9 true).1.message = "Entity Created Successfully" ∧
    (upsert [] ⟨1, 5, 0, [("name", 7)]⟩ 9 true).1.data ≠ none ∧
    (upsert [] ⟨1, 5, 0, [("name", 7)]⟩ 9 true).2 = [] := by
  decide

/-- Claim C2 amended: when the transactional step fails, the transaction
is rolled back (database unchanged) and the result has succeeded=false,
but the message is the Created/Updated success message rather than one
reporting the triggering error, and the payload still carries the model
dump, so the OperationResult invariant (succeeded=false implies absent
payload) is violated by upsert. -/
theorem upsert_failure_semantics (db : List Entity) (model : Entity) (now : Nat) :
    (upsert db model now true).2 = db ∧
    (upsert db model now true).1.status = false ∧
    (upsert db model now true).1.data ≠ none ∧
    ((upsert db model now true).1.message = "Entity Created Successfully" ∨
     (upsert db model now true).1.message = "Entity Updated Successfully") := by
  refine ⟨rfl, rfl, by simp [upsert], ?_⟩
  by_cases h : (db.find? (fun e => e.id == model.id)).isSome <;>
    simp [upsert, h]

/-- Claim C3 counterexample: upserting an incoming entity that carries a
different creation timestamp overwrites the persisted creation timestamp
(10 becomes 99), so the original creation timestamp is not preserved. -/
theorem upsert_overwrites_creation_timestamp :
    (upsert [⟨1, 10, 10, [("name", 5)]⟩] ⟨1, 99, 0, [("name", 7)]⟩ 50 false).2 =
      [⟨1, 99, 50, [("name", 7)]⟩] ∧
    (99 : Nat) ≠ 10 := by
  decide

/-- Claim C3 amended: upsert on an existing identifier overwrites every
field of the persisted row with the incoming values — including the
creation timestamp, which is preserved only when the incoming entity
carries the original value — stamps the update timestamp with the
current time, and updates the row in place: the row count is unchanged
(no duplicate row) and rows with other identifiers are untouched. -/
theorem upsert_update_overwrites_in_place (db : List Entity) (model : Entity) (now : Nat)
    (hex : ∃ e ∈ db, e.id = model.id) :
    (upsert db model now false).2.length = db.length ∧
    (∀ e ∈ (upsert db model now false).2,
       e.id = model.id → e = { model with updatedAt := now }) ∧
    (∀ e ∈ db, e.id ≠ model.id → e ∈ (upsert db model now false).2) := by
  have hfind : (db.find? (fun e => e.id == model.id)).isSome = true := by
    rw [List.find?_isSome]
    obtain ⟨e, he, hid⟩ := hex
    exact ⟨e, he, by simp [hid]⟩
  obtain ⟨w, hw⟩ := Option.isSome_iff_exists.mp hfind
  refine ⟨?_, ?_, ?_⟩
  · simp [upsert, hw]
  · intro e he hid
    simp only [upsert, hw] at he
    obtain ⟨a, _, ha⟩ := List.mem_map.mp he
    by_cases hcase : a.id = model.id
    · simpa [hcase] using ha.symm
    · rw [← ha] at hid
      simp [hcase] at hid
  · intro e he hid
    simp only [upsert, hw]
    exact List.mem_map.mpr ⟨e, he, by simp [hid]⟩

/-- Claim C3 amended witness: a concrete update keeps the row count at
one. -/
theorem upsert_update_overwrites_in_place_witness :
    (upsert [⟨1, 10, 10, [("name", 5)]⟩] ⟨1, 99, 0, [("name", 7)]⟩ 50 false).2.length = 1 :=
  (upsert_update_overwrites_in_place [⟨1, 10, 10, [("name", 5)]⟩] ⟨1, 99, 0, [("name", 7)]⟩ 50
    (by decide)).1

/-- Attribute access on an entity by column name, used by the
equality-conjunction filters of get and delete. -/
def lookupAttr (e : Entity) (col : String) : Option Nat :=
  if col == "id" then some e.id
  else if col == "created_at" then some e.createdAt
  else if col == "updated_at" then some e.updatedAt
  else e.fields.lookup col

/-- The conjunction of equality filters built from the column/value
pairs (the `and_(*conditions)` in get and delete). -/
def entityMatches (filters : List (String × Nat)) (e : Entity) : Bool :=
  filters.all (fun p => lookupAttr e p.1 == some p.2)

/-- The integrity-failure message of delete (the IntegrityError branch),
with the entity name and the driver error text spliced in. -/
def integrityMessage (name errText : String) : String :=
  "Integrity error: The " ++ name ++
    " is linked to another entity and cannot be deleted. " ++ errText

/-- The generic execution-failure message of delete (the catch-all
branch). -/
def genericDeleteMessage (errText : String) : String :=
  "Error while deleting: " ++ errText

/-- `delete` (lines 321-361 of db_manager.py).  `referenced` tells which
row identifiers are referenced by a dependent row: with foreign keys
enforced, deleting such a row raises IntegrityError at the delete/commit
step, which is rolled back and reported with the integrity-specific
message.  `execError` models any other driver exception, reported with
the generic message.  Zero matching rows is a success with an
informational message. -/
def deleteRows (db : List Entity) (referenced : Nat → Bool)
    (filters : List (String × Nat)) (errText : String) (execError : Option String) :
    Response Unit × List Entity :=
  match execError with
  | some e => ({ message := genericDeleteMessage e, status := false, data := none }, db)
  | none =>
      let rows := db.filter (entityMatches filters)
      if rows.isEmpty then
        ({ message := "Row not found", status := true, data := none }, db)
      else if rows.any (fun r => referenced r.id) then
        ({ message := integrityMessage "Entity" errText, status := false, data := none }, db)
      else
        ({ message := "Entity Deleted Successfully", status := true, data := none },
          db.filter (fun e => !entityMatches filters e))

/-- The integrity message and the generic message are always distinct:
they begin with different characters. -/
theorem integrityMessage_ne_genericDeleteMessage (name errText s : String) :
    integrityMessage name errText ≠ genericDeleteMessage s := by
  intro h
  have h2 := congrArg (fun t => t.data.head?) h
  simp [integrityMessage, genericDeleteMessage, String.data_append] at h2

/-- Claim C6: deleting a matching row that is referenced by a dependent
row fails with the integrity-specific message — distinct from every
generic execution-failure message — the transaction is rolled back (the
database is unchanged), and the row remains present afterwards. -/
theorem delete_referenced_row_integrity_failure (db : List Entity)
    (referenced : Nat → Bool) (filters : List (String × Nat)) (errText : String)
    (e : Entity) (hmem : e ∈ db) (hmatch : entityMatches filters e = true)
    (href : referenced e.id = true) :
    (deleteRows db referenced filters errText none).1.status = false ∧
    (deleteRows db referenced filters errText none).1.message =
      integrityMessage "Entity" errText ∧
    (∀ s : String,
      (deleteRows db referenced filters errText none).1.message ≠ genericDeleteMessage s) ∧
    (deleteRows db referenced filters errText none).2 = db ∧
    e ∈ (deleteRows db referenced filters errText none).2 := by
  have hrow : e ∈ db.filter (entityMatches filters) := List.mem_filter.mpr ⟨hmem, hmatch⟩
  have hne : (db.filter (entityMatches filters)).isEmpty = false := by
    rcases hfe : db.filter (entityMatches filters) with _ | ⟨a, l⟩
    · rw [hfe] at hrow; simp at hrow
    · rfl
  have hany : (db.filter (entityMatches filters)).any (fun r => referenced r.id) = true :=
    List.any_eq_true.mpr ⟨e, hrow, href⟩
  have hout : deleteRows db referenced filters errText none =
      ({ message := integrityMessage "Entity" errText, status := false, data := none }, db) := by
    simp [deleteRows, hne, hany]
  refine ⟨by rw [hout], by rw [hout], ?_, by rw [hout], by rw [hout]; exact hmem⟩
  intro s
  rw [hout]
  exact integrityMessage_ne_genericDeleteMessage "Entity" errText s

/-- Claim C6 witness: a concrete referenced row survives its delete and
the integrity message is reported. -/
theorem delete_referenced_row_integrity_failure_witness :
    (deleteRows [⟨1, 0, 0, []⟩] (fun n => n == 1) [("id", 1)] "fk" none).2 =
      [⟨1, 0, 0, []⟩] :=
  (delete_referenced_row_integrity_failure [⟨1, 0, 0, []⟩] (fun n => n == 1)
    [("id", 1)] "fk" ⟨1, 0, 0, []⟩ (by decide) (by decide) (by decide)).2.2.2.1

/-- Insertion step of the ordering by creation timestamp used by get,
ascending or descending as requested by the caller. -/
def insertByStamp (asc : Bool) (e : Entity) : List Entity → List Entity
  | [] => [e]
  | h :: tl =>
      if (if asc then e.createdAt ≤ h.createdAt else h.createdAt ≤ e.createdAt) then
        e :: h :: tl
      else h :: insertByStamp asc e tl

/-- Rows ordered by creation timestamp as requested by the caller of
get. -/
def sortByStamp (asc : Bool) : List Entity → List Entity
  | [] => []
  | h :: tl => insertByStamp asc h (sortByStamp asc tl)

/-- `get` (lines 263-319 of db_manager.py): equality-conjunction filter
over the column/value pairs, ordered by creation timestamp; an empty
result set is a success.  `queryError` models a query-execution
exception: the session is rolled back, status becomes false with the
fixed fetch-error message, and data is the result list initialised
before the try block, still empty. -/
def getRows (db : List Entity) (filters : List (String × Nat)) (asc : Bool)
    (queryError : Option String) : Response (List Entity) :=
  match queryError with
  | some _ =>
      { message := "Error while fetching Entity", status := false, data := some [] }
  | none =>
      { message := "Entity Retrieved Successfully", status := true,
        data := some (sortByStamp asc (db.filter (entityMatches filters))) }

/-- One entry of the aggregate result list built by the directory
import: status, message and the imported identifier when available. -/
structure ImportItemResult where
  status : Bool
  message : String
  id : Option Nat
deriving Repr, DecidableEq

/-- The outcome of the per-item `import_team` call, which itself never
raises: a success response carrying the identifier in its data, a failed
response that still carries data (the upsert failure path), or a
response whose data is empty, which makes the loop body raise
ValueError before reading the status. -/
inductive ItemOutcome where
  | ok (id : Nat) (message : String)
  | failedWithData (message : String)
  | failedNoData (message : String)
deriving Repr, DecidableEq

/-- Whether the per-item outcome counts as a failed import. -/
def ItemOutcome.isFailed : ItemOutcome → Bool
  | .ok _ _ => false
  | .failedWithData _ => true
  | .failedNoData _ => true

/-- The loop body of `import_teams_from_directory` (lines 415-435 of
db_manager.py) for one configuration: an empty-data response raises
ValueError, caught by the per-item handler which appends a failed
entry; otherwise the entry copies status and message, with the
identifier only on success. -/
def processItem : ItemOutcome → ImportItemResult
  | .ok i msg => { status := true, message := msg, id := some i }
  | .failedWithData msg => { status := false, message := msg, id := none }
  | .failedNoData _ => { status := false, message := "No data returned from import", id := none }

/-- `import_teams_from_directory` (lines 396-443): the directory load
either raises (reported as a failed response) or yields one outcome per
configuration, each processed in isolation; the aggregate response is
always a success whose data is the per-item result list. -/
def importTeamsFromDirectory (loadResult : Except String (List ItemOutcome)) :
    Response (List ImportItemResult) :=
  match loadResult with
  | .error e => { message := e, status := false, data := none }
  | .ok outcomes =>
      { message := "Directory import complete", status := true,
        data := some (outcomes.map processItem) }

/-- Claim C5: when the directory load yields a list of configurations,
the aggregate result is succeeded=true with one entry per configuration
in its payload, and the entry at each position is failed exactly when
that single import failed — a failure never disturbs the entries of the
remaining imports. -/
theorem directory_import_isolates_failures (outcomes : List ItemOutcome) :
    (importTeamsFromDirectory (Except.ok outcomes)).status = true ∧
    (importTeamsFromDirectory (Except.ok outcomes)).message = "Directory import complete" ∧
    (importTeamsFromDirectory (Except.ok outcomes)).data =
      some (outcomes.map processItem) ∧
    (outcomes.map processItem).length = outcomes.length ∧
    (∀ k : Nat, ((outcomes.map processItem)[k]?).map (fun r => r.status) =
      (outcomes[k]?).map (fun o => !o.isFailed)) := by
  refine ⟨rfl, rfl, rfl, List.length_map _ _, ?_⟩
  intro k
  rw [List.getElem?_map]
  cases h : outcomes[k]? with
  | none => rfl
  | some o => cases o <;> rfl

/-- Claim C5 example: one good and one malformed configuration yield an
aggregate success with a two-entry list, exactly one entry succeeded. -/
theorem directory_import_one_bad_one_good :
    importTeamsFromDirectory
        (Except.ok [.ok 4 "Team Created Successfully", .failedNoData "bad json"]) =
      { message := "Directory import complete", status := true,
        data := some [⟨true, "Team Created Successfully", some 4⟩,
                      ⟨false, "No data returned from import", none⟩] } := by
  rfl

/-- `close` (lines 460-469 of db_manager.py): dispose the engine; on
failure the error is logged and then re-raised, so the call propagates
the exception instead of returning a result. -/
def close (disposeError : Option String) : Except String Unit :=
  match disposeError with
  | none => Except.ok ()
  | some e => Except.error e

/-- Claim C7 counterexample: a dispose failure during close propagates
as an exception to the caller; close neither returns an OperationResult
nor reports the failure in one. -/
theorem close_propagates_exception :
    close (some "disk error") = Except.error "disk error" := by
  rfl

/-- A persisted `Team` row: identifier, owning user, the structural
configuration payload stored in `component`, and timestamps. -/
structure TeamRec where
  id : Nat
  userId : String
  component : List (String × Nat)
  createdAt : Nat
  updatedAt : Nat
deriving Repr, DecidableEq

/-- Insertion step of the descending sort on creation timestamps used by
get with the default order. -/
def insertDesc (t : TeamRec) : List TeamRec → List TeamRec
  | [] => [t]
  | h :: tl => if h.createdAt ≤ t.createdAt then t :: h :: tl else h :: insertDesc t tl

/-- Rows ordered by creation timestamp, descending (the default order of
get). -/
def sortDesc : List TeamRec → List TeamRec
  | [] => []
  | h :: tl => insertDesc h (sortDesc tl)

/-- `get(Team, filter on user_id)` specialised to the team table: filter
by owner and order by creation timestamp descending; absence of rows is
a success. -/
def getTeams (db : List TeamRec) (userId : String) : Response (List TeamRec) :=
  { message := "Team Retrieved Successfully", status := true,
    data := some (sortDesc (db.filter (fun t => t.userId == userId))) }

/-- `_check_team_exists` (lines 445-458 of db_manager.py): fetch the
teams owned by the user; an empty result short-circuits; otherwise scan
for a deep-equal component. -/
def checkTeamExists (db : List TeamRec) (cfg : List (String × Nat)) (userId : String) :
    Option TeamRec :=
  let teams := ((getTeams db userId).data).getD []
  if teams.isEmpty then none
  else teams.find? (fun t => t.component == cfg)

/-- `upsert` specialised to team rows (the call on line 389), on the
failure-free path: update in place when the identifier exists, append
otherwise; the response data carries the stored identifier. -/
def teamUpsert (db : List TeamRec) (m : TeamRec) (now : Nat) : Response Nat × List TeamRec :=
  match db.find? (fun t => t.id == m.id) with
  | some _ =>
      let m2 := { m with updatedAt := now }
      ({ message := "Team Updated Successfully", status := true, data := some m2.id },
        db.map (fun t => if t.id == m.id then m2 else t))
  | none =>
      ({ message := "Team Created Successfully", status := true, data := some m.id },
        db ++ [m])

/-- `import_team` (lines 363-394) with an already-loaded configuration:
when `checkExists` finds a deep-equal configuration for the same owner
it short-circuits with the existing identifier and no write; otherwise
a new team row stamped with the owner and the current time is stored
through upsert, receiving the fresh identifier `freshId`. -/
def importTeam (db : List TeamRec) (cfg : List (String × Nat)) (userId : String)
    (checkExists : Bool) (freshId : Nat) (now : Nat) : Response Nat × List TeamRec :=
  let doStore := teamUpsert db
    { id := freshId, userId := userId, component := cfg, createdAt := now, updatedAt := now }
    now
  if checkExists then
    match checkTeamExists db cfg userId with
    | some t =>
        ({ message := "Identical team configuration already exists", status := true,
           data := some t.id }, db)
    | none => doStore
  else doStore

/-- `import_team` as called with a location reference (lines 369-394 of
db_manager.py): the whole body sits in one try block, so a failure of
the configuration loader — or any other exception before the store —
is returned as a failed response carrying the exception text and no
data, never re-raised. -/
def importTeamFromSource (db : List TeamRec) (source : Except String (List (String × Nat)))
    (userId : String) (checkExists : Bool) (freshId : Nat) (now : Nat) :
    Response Nat × List TeamRec :=
  match source with
  | .error e => ({ message := e, status := false, data := none }, db)
  | .ok cfg => importTeam db cfg userId checkExists freshId now

/-- Claim C7 amended: every facade and coordinator operation except
close converts backend exceptions into a failed response at its
boundary — initialize reports a body exception, reset reports dispose
and drop exceptions, upsert reports a transaction failure, get reports
a query failure, delete reports a driver error, import of one team
reports a loader failure, directory import reports a load failure —
while close returns no OperationResult: it succeeds silently or
re-raises the dispose exception. -/
theorem facade_totality_except_close (e : String) (owner : Nat)
    (autoUpgrade recreate asc checkExists : Bool) (env : InitEnv) (ienv : InitEnv)
    (db : List Entity) (model : Entity) (now : Nat)
    (filters : List (String × Nat)) (tdb : List TeamRec) (u : String) (freshId : Nat) :
    (init_database none autoUpgrade { env with bodyError := some e }).1 =
      { message := "Database initialization failed: " ++ e, status := false, data := none } ∧
    (reset_db none owner recreate { disposeError := some e, dropError := none } ienv).1 =
      { message := "Error while resetting database: " ++ e, status := false, data := none } ∧
    (reset_db none owner recreate { disposeError := none, dropError := some e } ienv).1 =
      { message := "Error while resetting database: " ++ e, status := false, data := none } ∧
    (upsert db model now true).1.status = false ∧
    getRows db filters asc (some e) =
      { message := "Error while fetching Entity", status := false, data := some [] } ∧
    (deleteRows db (fun _ => false) [] "" (some e)).1 =
      { message := genericDeleteMessage e, status := false, data := none } ∧
    (importTeamFromSource tdb (Except.error e) u checkExists freshId now).1 =
      { message := e, status := false, data := none } ∧
    importTeamsFromDirectory (Except.error e) =
      { message := e, status := false, data := none } ∧
    close none = Except.ok () ∧
    close (some e) = Except.error e := by
  exact ⟨rfl, rfl, rfl, rfl, rfl, rfl, rfl, rfl, rfl, rfl⟩

/-- Claim C8: starting from a database in which owner `o` has no teams
and `i1` is a fresh identifier, a first import with checkExists stores
the configuration under identifier `i1`, and a second import of the
structurally identical configuration for the same owner succeeds with
the identifier of the first call, performs no write, and leaves the row
count for that owner at one. -/
theorem import_team_check_exists_dedup (db : List TeamRec) (cfg : List (String × Nat))
    (o : String) (i1 i2 now1 now2 : Nat)
    (howner : ∀ t ∈ db, t.userId ≠ o) (hfresh : ∀ t ∈ db, t.id ≠ i1) :
    (importTeam db cfg o true i1 now1).1.status = true ∧
    (importTeam db cfg o true i1 now1).1.data = some i1 ∧
    (importTeam db cfg o true i1 now1).2 = db ++ [⟨i1, o, cfg, now1, now1⟩] ∧
    (importTeam (importTeam db cfg o true i1 now1).2 cfg o true i2 now2).1.status = true ∧
    (importTeam (importTeam db cfg o true i1 now1).2 cfg o true i2 now2).1.data = some i1 ∧
    (importTeam (importTeam db cfg o true i1 now1).2 cfg o true i2 now2).1.message =
      "Identical team configuration already exists" ∧
    (importTeam (importTeam db cfg o true i1 now1).2 cfg o true i2 now2).2 =
      (importTeam db cfg o true i1 now1).2 ∧
    (((importTeam (importTeam db cfg o true i1 now1).2 cfg o true i2 now2).2).filter
        (fun t => t.userId == o)).length = 1 := by
  have h1 : db.filter (fun t => t.userId == o) = [] := by
    rw [List.filter_eq_nil_iff]
    intro t ht
    simpa using howner t ht
  have hck1 : checkTeamExists db cfg o = none := by
    simp [checkTeamExists, getTeams, h1, sortDesc]
  have hfind : db.find? (fun t => t.id == i1) = none := by
    rw [List.find?_eq_none]
    intro t ht
    simpa using hfresh t ht
  have hr1 : importTeam db cfg o true i1 now1 =
      ({ message := "Team Created Successfully", status := true, data := some i1 },
        db ++ [⟨i1, o, cfg, now1, now1⟩]) := by
    simp [importTeam, hck1, teamUpsert, hfind]
  have h2 : (db ++ [(⟨i1, o, cfg, now1, now1⟩ : TeamRec)]).filter (fun t => t.userId == o) =
      [⟨i1, o, cfg, now1, now1⟩] := by
    rw [List.filter_append, h1]
    simp
  have hck2 : checkTeamExists (db ++ [⟨i1, o, cfg, now1, now1⟩]) cfg o =
      some ⟨i1, o, cfg, now1, now1⟩ := by
    simp [checkTeamExists, getTeams, h2, sortDesc, insertDesc, List.find?]
  have hr2 : importTeam (db ++ [⟨i1, o, cfg, now1, now1⟩]) cfg o true i2 now2 =
      ({ message := "Identical team configuration already exists", status := true,
         data := some i1 },
        db ++ [⟨i1, o, cfg, now1, now1⟩]) := by
    simp [importTeam, hck2]
  rw [hr1]
  rw [hr2]
  exact ⟨rfl, rfl, rfl, rfl, rfl, rfl, rfl, by rw [h2]; rfl⟩

/-- Claim C8 witness: a concrete repeated import returns the first
identifier and keeps one row for the owner. -/
theorem import_team_check_exists_dedup_witness :
    (importTeam (importTeam [] [("a", 1)] "u" true 7 1).2 [("a", 1)] "u" true 8 2).1.data =
      some 7 ∧
    (((importTeam (importTeam [] [("a", 1)] "u" true 7 1).2 [("a", 1)] "u" true 8 2).2).filter
        (fun t => t.userId == "u")).length = 1 := by
  have h := import_team_check_exists_dedup [] [("a", 1)] "u" 7 8 1 2
    (by intro t ht; simp at ht) (by intro t ht; simp at ht)
  exact ⟨h.2.2.2.2.1, h.2.2.2.2.2.2.2⟩

/-- Substring occurrence on character lists: `pat` occurs somewhere in
the list. -/
def charsHaveSub (pat : List Char) : List Char → Bool
  | [] => pat.isEmpty
  | c :: rest => pat.isPrefixOf (c :: rest) || charsHaveSub pat rest

/-- The Python substring test `pat in s`. -/
def strContains (s pat : String) : Bool := charsHaveSub pat.data s.data

/-- The sqlite connection arguments built by `__init__` (lines 29-41 of
db_manager.py): `check_same_thread=False`, a 15 second lock-wait
timeout, and `isolation_level=None` disabling the driver transaction
management. -/
structure SqliteConnectArgs where
  checkSameThread : Bool
  timeout : Nat
  isolationLevelNone : Bool
deriving Repr, DecidableEq

/-- The pooling strategy chosen by `__init__`: a static pool keeping one
shared physical connection, or a sized client/server pool. -/
inductive PoolConfig where
  | staticPool (prePing : Bool) (recycle : Nat)
  | sizedPool (size : Nat) (maxOverflow : Nat) (prePing : Bool) (recycle : Nat) (timeout : Nat)
deriving Repr, DecidableEq

/-- The full engine configuration: connection arguments (`none` mirrors
the empty dict of the non-sqlite branch), the pool, and the pragma
statements run on every new physical connection (empty when no listener
is registered). -/
structure EngineConfig where
  connectArgs : Option SqliteConnectArgs
  pool : PoolConfig
  pragmas : List String
deriving Repr, DecidableEq

/-- The pragma sequence of `set_sqlite_pragma` (lines 66-91), in
execution order. -/
def sqlitePragmas : List String :=
  ["PRAGMA foreign_keys=ON", "PRAGMA journal_mode=WAL", "PRAGMA synchronous=NORMAL",
   "PRAGMA cache_size=100000", "PRAGMA temp_store=MEMORY", "PRAGMA mmap_size=268435456",
   "PRAGMA page_size=8192", "PRAGMA wal_autocheckpoint=1000", "PRAGMA busy_timeout=15000",
   "PRAGMA read_uncommitted=ON", "PRAGMA wal_checkpoint=TRUNCATE", "PRAGMA optimize"]

/-- `__init__` (lines 20-96): the backend family is chosen by the
substring test `"sqlite" in engine_uri`; the sqlite branch builds the
shared static-pool configuration with pragmas, every other URI the
bounded sized pool with no connection arguments. -/
def buildEngineConfig (uri : String) : EngineConfig :=
  if strContains uri "sqlite" then
    { connectArgs := some { checkSameThread := false, timeout := 15, isolationLevelNone := true },
      pool := .staticPool true 3600,
      pragmas := sqlitePragmas }
  else
    { connectArgs := none,
      pool := .sizedPool 20 0 true 3600 15,
      pragmas := [] }

/-- Claim C9: the embedded-backend configuration (shared static pool
usable across threads, driver transaction management disabled, 15
second lock-wait timeout, and per-connection pragmas for foreign keys,
WAL, NORMAL synchronous, raised cache and page sizing, and a busy-wait
timeout) is applied exactly when the string sqlite occurs as a
substring anywhere in the URI; every other URI receives the bounded
pool of size 20 with zero overflow, pre-ping and recycling. -/
theorem engine_config_by_substring (uri : String) :
    (strContains uri "sqlite" = true →
      buildEngineConfig uri =
        { connectArgs := some { checkSameThread := false, timeout := 15,
                                isolationLevelNone := true },
          pool := .staticPool true 3600,
          pragmas := sqlitePragmas }) ∧
    (strContains uri "sqlite" = false →
      buildEngineConfig uri =
        { connectArgs := none, pool := .sizedPool 20 0 true 3600 15, pragmas := [] }) ∧
    "PRAGMA foreign_keys=ON" ∈ sqlitePragmas ∧
    "PRAGMA journal_mode=WAL" ∈ sqlitePragmas ∧
    "PRAGMA synchronous=NORMAL" ∈ sqlitePragmas ∧
    "PRAGMA cache_size=100000" ∈ sqlitePragmas ∧
    "PRAGMA page_size=8192" ∈ sqlitePragmas ∧
    "PRAGMA busy_timeout=15000" ∈ sqlitePragmas := by
  refine ⟨?_, ?_, by decide, by decide, by decide, by decide, by decide, by decide⟩
  · intro h; simp [buildEngineConfig, h]
  · intro h; simp [buildEngineConfig, h]

/-- Claim C9 witness: a URI whose scheme is not sqlite but which
carries sqlite as an interior substring receives the embedded
configuration, and a URI without the substring receives the bounded
pool. -/
theorem engine_config_by_substring_witness :
    buildEngineConfig "postgresql://host/db?backup=sqlite" =
      { connectArgs := some { checkSameThread := false, timeout := 15,
                              isolationLevelNone := true },
        pool := .staticPool true 3600,
        pragmas := sqlitePragmas } ∧
    buildEngineConfig "postgresql://host/db" =
      { connectArgs := none, pool := .sizedPool 20 0 true 3600 15, pragmas := [] } :=
  ⟨(engine_config_by_substring "postgresql://host/db?backup=sqlite").1 (by decide),
   (engine_config_by_substring "postgresql://host/db").2.1 (by decide)⟩

end MagenticDB
